import Mathlib

/-!
# FeedValue client SDK — verification of the state/API core

A shallow embedding of the `@feedvalue/core` TypeScript package:
the `ApiClient` (config caching, token lifecycle, feedback submission
with the 403 refresh-and-retry path) from `api-client.ts`, and the
`FeedValue` widget controller (instance registry, state snapshots,
open/close/show/hide, submit validation) from `feedvalue.ts`.

Conventions of the embedding:
* Wall-clock time is an integer count of milliseconds (`Int`), matching
  `Date.now()`.  Where the source divides by 1000 (`Date.now() / 1000`),
  the embedding computes the exact rational; all comparisons in the
  source are at ≥ 1 second granularity, so the float rounding of the
  source cannot change any compared outcome.
* JavaScript `Map`s are association lists with `alistGet`/`alistSet`/
  `alistErase`.
* Network effects are passed in as explicit oracle values (`ConfigNet`,
  `HttpResponse`): a call's outcome is a pure function of the starting
  state, the clock, and the responses the network would give.
* `async` methods are modelled as complete sequential calls: the
  in-flight `pendingRequests` slot is inserted and removed within one
  call, so a completed call leaves it as found.
* JS truthiness on strings/numbers (`if (data.submission_token)`,
  `!this.tokenExpiresAt`) is modelled explicitly: `none`, `some ""` and
  `some 0` are falsy.
-/

/-! ## Association-list maps (JS `Map`) -/

def alistGet {κ α : Type} [DecidableEq κ] (l : List (κ × α)) (k : κ) : Option α :=
  match l with
  | [] => none
  | (k', v) :: rest => if k' = k then some v else alistGet rest k

def alistErase {κ α : Type} [DecidableEq κ] : List (κ × α) → κ → List (κ × α)
  | [], _ => []
  | (k', v) :: rest, k =>
    if k' = k then alistErase rest k else (k', v) :: alistErase rest k

def alistSet {κ α : Type} [DecidableEq κ] (l : List (κ × α)) (k : κ) (v : α) :
    List (κ × α) :=
  (k, v) :: alistErase l k

/-- JavaScript `String.prototype.includes`: substring containment. -/
def strIncludes (s sub : String) : Bool :=
  decide (sub.toList <:+: s.toList)

/-- JS truthiness of an optional string (`undefined`, `null` and `""` are falsy). -/
def strTruthy : Option String → Bool
  | none => false
  | some s => s ≠ ""

/-- The whitespace class of JavaScript `String.prototype.trim`
(restricted to the characters that can occur in this model). -/
def jsWhitespace (c : Char) : Bool :=
  c = ' ' ∨ c = '\t' ∨ c = '\n' ∨ c = '\r'

/-- JavaScript `String.prototype.trim`: strip leading and trailing
whitespace. -/
def jsTrim (s : String) : String :=
  String.mk (((s.toList.dropWhile jsWhitespace).reverse.dropWhile jsWhitespace).reverse)

/-- The part of a widget config response the `ApiClient` inspects:
the identifier, the optional anti-abuse token pair, and the UI payload
(abstracted to an opaque string — the client never reads it). -/
structure ConfigResponse where
  widget_id : String
  submission_token : Option String
  token_expires_at : Option Int
  payload : String
deriving DecidableEq, Repr

/-- The part of a feedback response the `ApiClient` inspects:
`feedback_id`, plus the soft-block pair `blocked`/`message`. -/
structure FeedbackResponse where
  feedback_id : Option String
  blocked : Bool
  message : Option String
deriving DecidableEq, Repr

/-- Feedback data handed to `submitFeedback` (`FeedbackData` in `types.ts`). -/
structure FeedbackData where
  message : Option String
  sentiment : Option String
  customFieldValues : Option (List (String × String))
  metadata : List (String × String)
deriving DecidableEq, Repr

/-- Source `CacheEntry<T>` from `api-client.ts`: a value with its absolute
expiry instant in milliseconds. -/
structure CacheEntry (α : Type) where
  data : α
  expiresAt : Int
deriving DecidableEq, Repr

/-- The mutable fields of the `ApiClient` class. -/
structure ApiClientState where
  baseUrl : String
  configCache : List (String × CacheEntry ConfigResponse)
  pendingRequests : List String
  submissionToken : Option String
  tokenExpiresAt : Option Int
  fingerprint : Option String
deriving DecidableEq, Repr

/-- Source constant `TOKEN_EXPIRY_BUFFER_SECONDS`. -/
def TOKEN_EXPIRY_BUFFER_SECONDS : Int := 30

/-- Source constant `CONFIG_CACHE_TTL_MS` (5 minutes). -/
def CONFIG_CACHE_TTL_MS : Int := 5 * 60 * 1000

/-- Constructor `new ApiClient(baseUrl)`: trailing slash stripped, empty caches. -/
def mkApiClient (baseUrl : String) : ApiClientState :=
  { baseUrl := if baseUrl.endsWith "/" then baseUrl.dropRight 1 else baseUrl
    configCache := []
    pendingRequests := []
    submissionToken := none
    tokenExpiresAt := none
    fingerprint := none }

/-- Method `validateWidgetId`: presence, character allow-list, then length ≤ 64,
checked in source order. -/
def validateWidgetId (widgetId : String) : Except String Unit :=
  if widgetId = "" then
    .error "Widget ID is required"
  else if ¬ (widgetId.toList ≠ [] ∧ widgetId.toList.all fun c =>
      ('a' ≤ c ∧ c ≤ 'z') ∨ ('A' ≤ c ∧ c ≤ 'Z') ∨ ('0' ≤ c ∧ c ≤ '9') ∨
        c = '_' ∨ c = '-') then
    .error "Invalid widget ID format: only alphanumeric characters, underscores, and hyphens are allowed"
  else if widgetId.length > 64 then
    .error "Widget ID exceeds maximum length of 64 characters"
  else
    .ok ()

/-- Method `hasValidToken()`: both fields truthy and
`Date.now() / 1000 < tokenExpiresAt - 30`.  Over exact arithmetic the
source's comparison of seconds (`nowMs / 1000 < e - 30`) is equivalent
to the integer-millisecond comparison `nowMs < (e - 30) * 1000`, which
is the executable form used here; the equivalence with the
seconds-and-division form is proved in `msSeconds_lt_iff`. -/
def hasValidToken (st : ApiClientState) (nowMs : Int) : Bool :=
  match st.submissionToken, st.tokenExpiresAt with
  | some t, some e =>
    if t = "" ∨ e = 0 then false
    else decide (nowMs < (e - TOKEN_EXPIRY_BUFFER_SECONDS) * 1000)
  | _, _ => false

/-- Method `clearCache()`: drop all config entries and the token pair. -/
def clearCache (st : ApiClientState) : ApiClientState :=
  { st with configCache := [], submissionToken := none, tokenExpiresAt := none }

/-- Oracle for the GET request inside `doFetchConfig`: either the parsed
successful body, or the error message the client would end up with
(`parseError` of a non-ok response, or a transport failure). -/
inductive ConfigNet where
  | ok (data : ConfigResponse)
  | fail (msg : String)
deriving DecidableEq, Repr

def ConfigNet.toResult : ConfigNet → Except String ConfigResponse
  | .ok data => .ok data
  | .fail msg => .error msg

/-- Result of a complete `fetchConfig` call: the value returned or error
thrown, the client state afterwards, and whether a network request was
issued by this call. -/
structure FetchOutcome where
  result : Except String ConfigResponse
  state : ApiClientState
  networkIssued : Bool
deriving Repr

/-- Method `doFetchConfig`: perform the GET (outcome given by the oracle); on a
non-ok response throw the parsed message and change nothing; on success
store the token pair when `data.submission_token` is truthy, then cache
the response for `CONFIG_CACHE_TTL_MS`. -/
def doFetchConfig (st : ApiClientState) (nowMs : Int) (widgetId : String)
    (net : ConfigNet) : Except String ConfigResponse × ApiClientState :=
  match net with
  | .fail msg => (.error msg, st)
  | .ok data =>
    let st1 :=
      if strTruthy data.submission_token then
        { st with submissionToken := data.submission_token
                  tokenExpiresAt := data.token_expires_at }
      else st
    let entry : CacheEntry ConfigResponse := ⟨data, nowMs + CONFIG_CACHE_TTL_MS⟩
    let st2 :=
      { st1 with configCache := alistSet st1.configCache ("config:" ++ widgetId) entry }
    (.ok data, st2)

/-- Method `fetchConfig`, as one complete call: validate the id, serve a fresh
cache entry without touching the network, coalesce onto an in-flight
request if one exists (the caller then observes that request's result
and performs no mutation of its own), otherwise run `doFetchConfig`.
The `pendingRequests` slot is inserted before the request and deleted in
the `finally`, so a completed call leaves `pendingRequests` as found. -/
def fetchConfig (st : ApiClientState) (nowMs : Int) (widgetId : String)
    (net : ConfigNet) : FetchOutcome :=
  match validateWidgetId widgetId with
  | .error e => ⟨.error e, st, false⟩
  | .ok _ =>
    let cacheKey := "config:" ++ widgetId
    let hit : Option ConfigResponse :=
      match alistGet st.configCache cacheKey with
      | some cached => if nowMs < cached.expiresAt then some cached.data else none
      | none => none
    match hit with
    | some data => ⟨.ok data, st, false⟩
    | none =>
      let pendingKey := "fetchConfig:" ++ widgetId
      if pendingKey ∈ st.pendingRequests then
        ⟨net.toResult, st, false⟩
      else
        let r := doFetchConfig st nowMs widgetId net
        ⟨r.1, r.2, true⟩

/-- The `detail` field of a 403 response body, as the client
discriminates it: an object carrying `code`/`message` (subscription
limit check), a plain string, or anything else (including the
`{ detail: 'Access denied' }` fallback when the body fails to parse,
which is the `text "Access denied"` case). -/
inductive ForbiddenDetail where
  | obj (code message : String)
  | text (msg : String)
  | absent
deriving DecidableEq, Repr

/-- Oracle for one POST of the feedback body. `rateLimited` carries the
parsed `X-RateLimit-Reset` header value (epoch seconds) when present;
`failure` carries the message `parseError` would produce. -/
inductive HttpResponse where
  | success (body : FeedbackResponse)
  | rateLimited (resetAt : Option Int)
  | forbidden (detail : ForbiddenDetail)
  | failure (msg : String)
deriving DecidableEq, Repr

def HttpResponse.isOk : HttpResponse → Bool
  | .success _ => true
  | _ => false

/-- Oracles consumed by one complete `submitFeedback` call, in program
order: the config network used by the pre-POST refresh (when that
refresh reaches the network), the first POST's response, the config
network used by the 403-path refresh, and the retried POST's response.
Unreached components are simply unused. -/
structure SubmitOracle where
  refreshNet : ConfigNet
  postResp : HttpResponse
  retryRefreshNet : ConfigNet
  retryResp : HttpResponse
deriving DecidableEq, Repr

/-- Result of a complete `submitFeedback` call: the value returned or
error thrown, the client state afterwards, the number of config network
requests issued, and the `X-Submission-Token` header values of the POSTs
issued, in order. -/
structure SubmitOutcome where
  result : Except String FeedbackResponse
  state : ApiClientState
  configRequests : Nat
  postTokens : List String
deriving Repr

/-- Continuation of `submitFeedback` once the first POST (with token
`tok`, from state `st`) has returned `resp`; `cfgReqs` counts the config
network requests issued so far. -/
def handlePostResponse (st : ApiClientState) (nowMs : Int) (widgetId : String)
    (tok : String) (cfgReqs : Nat) (o : SubmitOracle)
    (resp : HttpResponse) : SubmitOutcome :=
  match resp with
  | .rateLimited resetAt =>
    let retryAfter : Int :=
      match resetAt with
      | some r => ⌈(r : ℚ) - (nowMs : ℚ) / 1000⌉
      | none => 60
    ⟨.error ("Rate limited. Try again in " ++ toString retryAfter ++ " seconds."),
      st, cfgReqs, [tok]⟩
  | .forbidden detail =>
    match detail with
    | .obj code message =>
      -- subscription limit: a truthy `code` and `message` pair
      if code ≠ "" ∧ message ≠ "" then
        ⟨.error message, st, cfgReqs, [tok]⟩
      else
        -- `errorMessage` is `''` (detail is not a string), so no retry
        ⟨.error "Access denied", st, cfgReqs, [tok]⟩
    | .absent => ⟨.error "Access denied", st, cfgReqs, [tok]⟩
    | .text errorMessage =>
      if strIncludes errorMessage "token" ∨ strIncludes errorMessage "expired" then
        -- clear the token and refresh config; a throwing refresh propagates
        let st1 := { st with submissionToken := none }
        let f := fetchConfig st1 nowMs widgetId o.retryRefreshNet
        let cfgReqs1 := cfgReqs + (if f.networkIssued then 1 else 0)
        match f.result with
        | .error e => ⟨.error e, f.state, cfgReqs1, [tok]⟩
        | .ok _ =>
          match f.state.submissionToken with
          | some tok2 =>
            if tok2 = "" then
              -- `if (this.submissionToken)` is falsy: no retry
              ⟨.error (if errorMessage = "" then "Access denied" else errorMessage),
                f.state, cfgReqs1, [tok]⟩
            else
              -- retry once with the new token; an ok retry is returned
              -- as-is (no soft-block check on the retry path), any other
              -- retry outcome falls through to the original message
              match o.retryResp with
              | .success body => ⟨.ok body, f.state, cfgReqs1, [tok, tok2]⟩
              | _ =>
                ⟨.error (if errorMessage = "" then "Access denied" else errorMessage),
                  f.state, cfgReqs1, [tok, tok2]⟩
          | none =>
            ⟨.error (if errorMessage = "" then "Access denied" else errorMessage),
              f.state, cfgReqs1, [tok]⟩
      else
        ⟨.error (if errorMessage = "" then "Access denied" else errorMessage),
          st, cfgReqs, [tok]⟩
  | .failure msg => ⟨.error msg, st, cfgReqs, [tok]⟩
  | .success body =>
    if body.blocked then
      let m :=
        match body.message with
        | some m => if m = "" then "Unable to submit feedback" else m
        | none => "Unable to submit feedback"
      ⟨.error m, st, cfgReqs, [tok]⟩
    else
      ⟨.ok body, st, cfgReqs, [tok]⟩

/-- The tail of `submitFeedback` after the token-refresh step: fail when
no truthy token is held, otherwise POST and dispatch on the response. -/
def submitWithToken (st1 : ApiClientState) (nowMs : Int) (widgetId : String)
    (cfgReqs : Nat) (o : SubmitOracle) : SubmitOutcome :=
  match st1.submissionToken with
  | none => ⟨.error "No submission token available", st1, cfgReqs, []⟩
  | some tok =>
    if tok = "" then
      ⟨.error "No submission token available", st1, cfgReqs, []⟩
    else
      handlePostResponse st1 nowMs widgetId tok cfgReqs o o.postResp

/-- Method `submitFeedback`, as one complete call: validate the id; when no
valid token is held, refresh via `fetchConfig` (a thrown refresh
propagates); fail when still no truthy token; POST; then dispatch on the
response status (429, 403 with refresh-and-retry-once, other non-ok,
soft block, success). -/
def submitFeedback (st : ApiClientState) (nowMs : Int) (widgetId : String)
    (o : SubmitOracle) : SubmitOutcome :=
  match validateWidgetId widgetId with
  | .error e => ⟨.error e, st, 0, []⟩
  | .ok _ =>
    if hasValidToken st nowMs then
      submitWithToken st nowMs widgetId 0 o
    else
      let f := fetchConfig st nowMs widgetId o.refreshNet
      let n := if f.networkIssued then 1 else 0
      match f.result with
      | .error e => ⟨.error e, f.state, n, []⟩
      | .ok _ => submitWithToken f.state nowMs widgetId n o

/-- Source `FeedValueState` from `types.ts`. -/
structure FeedValueState where
  isReady : Bool
  isOpen : Bool
  isVisible : Bool
  error : Option String
  isSubmitting : Bool
deriving DecidableEq, Repr

/-- The state a fresh controller starts with. -/
def initialControllerState : FeedValueState :=
  { isReady := false, isOpen := false, isVisible := true
    error := none, isSubmitting := false }

/-- The state `destroy()` resets to (note `isVisible := false`, unlike
construction). -/
def destroyedControllerState : FeedValueState :=
  { isReady := false, isOpen := false, isVisible := false
    error := none, isSubmitting := false }

/-- A `Partial<FeedValueState>` as passed to `updateState`: absent
fields keep their value under the object spread. -/
structure StatePatch where
  isReady : Option Bool := none
  isOpen : Option Bool := none
  isVisible : Option Bool := none
  error : Option (Option String) := none
  isSubmitting : Option Bool := none
deriving DecidableEq, Repr

/-- Spread `{ ...this.state, ...partial }`. -/
def applyPatch (s : FeedValueState) (p : StatePatch) : FeedValueState :=
  { isReady := p.isReady.getD s.isReady
    isOpen := p.isOpen.getD s.isOpen
    isVisible := p.isVisible.getD s.isVisible
    error := p.error.getD s.error
    isSubmitting := p.isSubmitting.getD s.isSubmitting }

/-- The event names of `FeedValueEvents` (`types.ts`): exactly `ready`,
`open`, `close`, `submit`, `error` and `stateChange` — there is no
dedicated event for `show`/`hide`. -/
inductive FVEvent where
  | ready
  | targetOpen
  | targetClose
  | submit
  | error
  | stateChange
deriving DecidableEq, Repr

/-- One `FeedValue` controller instance. `subscribers` holds the
identities of the registered state-subscriber callbacks. -/
structure Controller where
  widgetId : String
  apiClient : ApiClientState
  state : FeedValueState
  stateSnapshot : FeedValueState
  snapshotId : Nat
  nextId : Nat
  snapshots : List (Nat × FeedValueState)
  subscribers : List Nat
  userId : Option String
  userData : List (String × String)
  userTraits : List (String × String)
deriving DecidableEq, Repr

/-- The controller constructor: default state, and
`this.stateSnapshot = { ...this.state }` — a fresh copy. -/
def mkController (widgetId : String) (apiBaseUrl : String) : Controller :=
  { widgetId := widgetId
    apiClient := mkApiClient apiBaseUrl
    state := initialControllerState
    stateSnapshot := initialControllerState
    snapshotId := 0
    nextId := 1
    snapshots := [(0, initialControllerState)]
    subscribers := []
    userId := none
    userData := []
    userTraits := [] }

/-- What one controller method call produced: the controller afterwards,
the events it emitted in order, and the subscriber callbacks it invoked
in order. -/
structure OpResult where
  ctrl : Controller
  emitted : List FVEvent
  notified : List Nat
deriving DecidableEq, Repr

/-- Method `updateState`: build the new state by spread, allocate a *new*
snapshot object for it, emit `stateChange`, then invoke every
subscriber.  There is no change-detection: the snapshot is replaced and
everyone notified even if the patch changed nothing. -/
def updateState (c : Controller) (p : StatePatch) : OpResult :=
  let s := applyPatch c.state p
  { ctrl := { c with
      state := s
      stateSnapshot := s
      snapshotId := c.nextId
      nextId := c.nextId + 1
      snapshots := alistSet c.snapshots c.nextId s }
    emitted := [.stateChange]
    notified := c.subscribers }

/-- Method `getSnapshot()`: the current snapshot object — its identity and its
value. -/
def getSnapshot (c : Controller) : Nat × FeedValueState :=
  (c.snapshotId, c.stateSnapshot)

/-- Method `open()`: a no-op when not ready; otherwise update state then emit
`open`. -/
def openOp (c : Controller) : OpResult :=
  if ¬ c.state.isReady then ⟨c, [], []⟩
  else
    let u := updateState c { isOpen := some true }
    { u with emitted := u.emitted ++ [.targetOpen] }

/-- Method `close()`: update state (unconditionally) then emit `close`. -/
def closeOp (c : Controller) : OpResult :=
  let u := updateState c { isOpen := some false }
  { u with emitted := u.emitted ++ [.targetClose] }

/-- Method `toggle()`. -/
def toggleOp (c : Controller) : OpResult :=
  if c.state.isOpen then closeOp c else openOp c

/-- Method `show()`: update the visibility flag; no dedicated event exists. -/
def showOp (c : Controller) : OpResult :=
  updateState c { isVisible := some true }

/-- Method `hide()`: update the visibility flag; no dedicated event exists. -/
def hideOp (c : Controller) : OpResult :=
  updateState c { isVisible := some false }

/-- Method `setData(data)`: merge into the stored data bag; no state change. -/
def setDataOp (c : Controller) (data : List (String × String)) : Controller :=
  { c with userData := data.foldl (fun acc kv => alistSet acc kv.1 kv.2) c.userData }

/-- Method `identify(userId, traits?)`: set the user id, merge traits. -/
def identifyOp (c : Controller) (userId : String)
    (traits : Option (List (String × String))) : Controller :=
  { c with
    userId := some userId
    userTraits :=
      match traits with
      | some ts => ts.foldl (fun acc kv => alistSet acc kv.1 kv.2) c.userTraits
      | none => c.userTraits }

/-- Method `reset()`: clear user id, data bag and trait bag. -/
def resetOp (c : Controller) : Controller :=
  { c with userId := none, userData := [], userTraits := [] }

/-- Method `subscribe(callback)`: register a subscriber identity. -/
def subscribeOp (c : Controller) (callbackId : Nat) : Controller :=
  { c with subscribers :=
      if callbackId ∈ c.subscribers then c.subscribers
      else c.subscribers ++ [callbackId] }

/-- Method `destroy()` at the controller level: clear subscribers and all event
listeners, clear the API client's cache, and reset `this.state` to a
fresh default object.  `stateSnapshot` is *not* reassigned. -/
def destroyCtrl (c : Controller) : Controller :=
  { c with
    subscribers := []
    apiClient := clearCache c.apiClient
    state := destroyedControllerState }

/-- Source `FeedValueOptions` (the fields the constructor reads). -/
structure FeedValueOptions where
  widgetId : String
  apiBaseUrl : String := "https://api.feedvalue.com"
deriving DecidableEq, Repr

/-- The module-level `instances` map together with a heap of controller
objects; `nextInstanceId` is the allocation counter standing in for JS
object identity of controller instances. -/
structure Registry where
  instances : List (String × Nat)
  heap : List (Nat × Controller)
  nextInstanceId : Nat
deriving DecidableEq, Repr

/-- The empty registry at module load. -/
def emptyRegistry : Registry := { instances := [], heap := [], nextInstanceId := 0 }

/-- Static `FeedValue.init(options)`: return the existing instance for the
identifier unchanged if one is registered (the options of this call are
not read); otherwise construct, register and return a new instance. -/
def registryInit (r : Registry) (options : FeedValueOptions) : Registry × Nat :=
  match alistGet r.instances options.widgetId with
  | some iid => (r, iid)
  | none =>
    let iid := r.nextInstanceId
    let c := mkController options.widgetId options.apiBaseUrl
    ({ instances := alistSet r.instances options.widgetId iid
       heap := alistSet r.heap iid c
       nextInstanceId := r.nextInstanceId + 1 }, iid)

/-- Static `FeedValue.getInstance(widgetId)`: registry lookup only. -/
def registryGetInstance (r : Registry) (widgetId : String) : Option Nat :=
  alistGet r.instances widgetId

/-- Method `destroy()` on instance `iid`: reset the controller object and
delete its widget identifier from `instances`. -/
def registryDestroy (r : Registry) (iid : Nat) : Registry :=
  match alistGet r.heap iid with
  | none => r
  | some c =>
    { r with
      instances := alistErase r.instances c.widgetId
      heap := alistSet r.heap iid (destroyCtrl c) }

/-- Result of a complete controller `submit` call. -/
structure SubmitOpResult where
  result : Except String FeedbackResponse
  ctrl : Controller
  emitted : List FVEvent
  postTokens : List String
  configRequests : Nat
deriving Repr

/-- Auto-collected metadata merged with caller overrides
(`{ page_url, referrer, user_agent, ...feedback.metadata }`): caller
entries win for overlapping keys. -/
def mergeMetadata (auto overrides : List (String × String)) :
    List (String × String) :=
  (auto.filter (fun p => alistGet overrides p.1 = none)) ++ overrides

/-- Method `submit(feedback)`: throw when not ready; throw when the message is
absent or blank after trimming (the *only* validation performed — there
is no length, sentiment or metadata check); set `isSubmitting`, build
the full payload, delegate to the API client, emit `submit` on success
or `error` on failure, and always clear `isSubmitting` afterwards. -/
def submitOp (c : Controller) (nowMs : Int) (fb : FeedbackData)
    (autoMetadata : List (String × String)) (o : SubmitOracle) : SubmitOpResult :=
  if ¬ c.state.isReady then
    ⟨.error "Widget not ready", c, [], [], 0⟩
  else
    match fb.message with
    | none => ⟨.error "Feedback message is required", c, [], [], 0⟩
    | some m =>
      if jsTrim m = "" then
        ⟨.error "Feedback message is required", c, [], [], 0⟩
      else
        let u1 := updateState c { isSubmitting := some true }
        let _fullFb : FeedbackData :=
          { message := some m
            sentiment := fb.sentiment
            customFieldValues := fb.customFieldValues
            metadata := mergeMetadata autoMetadata fb.metadata }
        let s := submitFeedback u1.ctrl.apiClient nowMs c.widgetId o
        let c1 := { u1.ctrl with apiClient := s.state }
        match s.result with
        | .ok resp =>
          let u2 := updateState c1 { isSubmitting := some false }
          ⟨.ok resp, u2.ctrl,
            u1.emitted ++ [.submit] ++ u2.emitted, s.postTokens, s.configRequests⟩
        | .error e =>
          let u2 := updateState c1 { isSubmitting := some false }
          ⟨.error e, u2.ctrl,
            u1.emitted ++ [.error] ++ u2.emitted, s.postTokens, s.configRequests⟩

/-- No cache entry for this widget identifier is fresh at `nowMs`. -/
def cacheMissOrStale (st : ApiClientState) (nowMs : Int) (widgetId : String) : Prop :=
  ∀ entry, alistGet st.configCache ("config:" ++ widgetId) = some entry →
    ¬ nowMs < entry.expiresAt

/-- A widget config body as the client would parse it, used as concrete
witness data. -/
def sampleConfig : ConfigResponse :=
  { widget_id := "w1", submission_token := some "tok-1"
    token_expires_at := some 4000, payload := "ui" }

/-- A client state holding a cache entry for `w1` expiring at t=400000ms. -/
def cachedApiState : ApiClientState :=
  { baseUrl := "https://api.feedvalue.com"
    configCache := [("config:" ++ "w1", ⟨sampleConfig, 400000⟩)]
    pendingRequests := []
    submissionToken := none
    tokenExpiresAt := none
    fingerprint := none }

/-- A client state holding a valid token `tok-old` (expiry 2000s) and an
empty cache. -/
def tokenApiState : ApiClientState :=
  { baseUrl := "https://api.feedvalue.com"
    configCache := []
    pendingRequests := []
    submissionToken := some "tok-old"
    tokenExpiresAt := some 2000
    fingerprint := none }

/-- A config body carrying the fresh token `tok-new`. -/
def newTokenConfig : ConfigResponse :=
  { widget_id := "w1", submission_token := some "tok-new"
    token_expires_at := some 5000, payload := "ui2" }

/-- Oracle for the C1 run: first POST gets a token-rejection 403, the
refresh succeeds with a new token, and the retried POST fails with a
distinct server error. -/
def retryFailOracle : SubmitOracle :=
  { refreshNet := .fail "refresh-unused"
    postResp := .forbidden (.text "token expired")
    retryRefreshNet := .ok newTokenConfig
    retryResp := .failure "server exploded" }

/-- Oracle for the C2 run: the network would fail if contacted, which
shows the pre-POST refresh is served from the cache. -/
def noNetworkOracle : SubmitOracle :=
  { refreshNet := .fail "network-down"
    postResp := .failure "post-unused"
    retryRefreshNet := .fail "network-down"
    retryResp := .failure "retry-unused" }

/-- Well-formedness of a controller's snapshot-identity bookkeeping:
the current snapshot id is below the allocation counter, every logged
snapshot id is below the counter, and the current snapshot is logged
under its id. -/
def wfController (c : Controller) : Prop :=
  c.snapshotId < c.nextId ∧ (∀ p ∈ c.snapshots, p.1 < c.nextId) ∧
  alistGet c.snapshots c.snapshotId = some c.stateSnapshot

/-- Well-formedness of the instance registry: every registered id is
below the allocation counter and maps in the heap to a controller
carrying its widget identifier. -/
def wfRegistry (r : Registry) : Prop :=
  ∀ w iid, alistGet r.instances w = some iid →
    iid < r.nextInstanceId ∧
    ∃ c, alistGet r.heap iid = some c ∧ c.widgetId = w

/-- A controller as it stands after successful initialization
(`updateState({ isReady: true, error: null })`). -/
def readyController : Controller :=
  (updateState (mkController "w1" "https://api.feedvalue.com")
    { isReady := some true, error := some none }).ctrl

/-- State of `readyController` after `open()`. -/
def openedController : Controller := (openOp readyController).ctrl

/-- Variant of `readyController` whose API client holds the valid token `tok-old`. -/
def readyTokenController : Controller :=
  { readyController with apiClient := tokenApiState }

/-- A message of 10001 characters. -/
def bigMessage : String := String.mk (List.replicate 10001 'a')

/-- Feedback carrying the 10001-character message. -/
def bigFeedback : FeedbackData :=
  { message := some bigMessage, sentiment := none
    customFieldValues := none, metadata := [] }

/-- Oracle whose POST succeeds. -/
def successOracle : SubmitOracle :=
  { refreshNet := .fail "refresh-unused"
    postResp := .success { feedback_id := some "fb-1", blocked := false, message := none }
    retryRefreshNet := .fail "retry-refresh-unused"
    retryResp := .failure "retry-unused" }

/-- A client state whose token expiry is 31 seconds past t=2000s. -/
def apiStateExpiry2031 : ApiClientState :=
  { baseUrl := "https://api.feedvalue.com", configCache := [], pendingRequests := []
    submissionToken := some "tok-abc", tokenExpiresAt := some 2031, fingerprint := none }

/-- A client state whose token expiry is 29 seconds past t=2000s. -/
def apiStateExpiry2029 : ApiClientState :=
  { apiStateExpiry2031 with tokenExpiresAt := some 2029 }

/-! ## Theorems -/

theorem alistGet_alistSet_self {κ α : Type} [DecidableEq κ]
    (l : List (κ × α)) (k : κ) (v : α) : alistGet (alistSet l k v) k = some v := by
  simp [alistSet, alistGet]

theorem alistGet_alistErase_self {κ α : Type} [DecidableEq κ]
    (l : List (κ × α)) (k : κ) : alistGet (alistErase l k) k = none := by
  induction l with
  | nil => rfl
  | cons p rest ih =>
    obtain ⟨k', v⟩ := p
    by_cases h : k' = k
    · simpa [alistErase, alistGet, h] using ih
    · simpa [alistErase, alistGet, h] using ih

theorem alistGet_alistErase_ne {κ α : Type} [DecidableEq κ]
    (l : List (κ × α)) (k k' : κ) (h : k ≠ k') :
    alistGet (alistErase l k) k' = alistGet l k' := by
  induction l with
  | nil => rfl
  | cons p rest ih =>
    obtain ⟨a, v⟩ := p
    by_cases hp : a = k
    · subst hp
      simp [alistErase, alistGet, h, ih]
    · by_cases hk : a = k'
      · simp [alistErase, alistGet, hp, hk, Ne.symm h]
      · simp [alistErase, alistGet, hp, hk, ih]

theorem alistGet_alistSet_ne {κ α : Type} [DecidableEq κ]
    (l : List (κ × α)) (k k' : κ) (v : α) (h : k ≠ k') :
    alistGet (alistSet l k v) k' = alistGet l k' := by
  simp [alistSet, alistGet, h, alistGet_alistErase_ne l k k' h]

/-- Comparing seconds with exact division is the same as comparing
milliseconds: `nowMs / 1000 < e - 30` over `ℚ` iff
`nowMs < (e - 30) * 1000` over `ℤ`. -/
theorem msSeconds_lt_iff (nowMs e : Int) :
    ((nowMs : ℚ) / 1000 < (e : ℚ) - 30) ↔ (nowMs < (e - 30) * 1000) := by
  rw [div_lt_iff₀ (by norm_num : (0 : ℚ) < 1000)]
  rw [show ((e : ℚ) - 30) * 1000 = (((e - 30) * 1000 : ℤ) : ℚ) by push_cast; ring]
  exact_mod_cast Iff.rfl

/-- Claim C3: `hasValidToken()` returns true iff a (nonempty) submission
token and an expiry timestamp are stored and the current time in seconds
is strictly below the stored expiry minus the 30-second buffer; in
particular an expiry of `now + 29` seconds yields `false` and an expiry
of `now + 31` seconds yields `true`. -/
theorem C3_hasValidToken_buffer :
    (∀ (st : ApiClientState) (nowMs : Int), 0 ≤ nowMs →
      (hasValidToken st nowMs = true ↔
        ∃ t e, st.submissionToken = some t ∧ t ≠ "" ∧ st.tokenExpiresAt = some e ∧
          (nowMs : ℚ) / 1000 < (e : ℚ) - 30))
    ∧ (∀ (st : ApiClientState) (nowSec : Int) (t : String), 0 ≤ nowSec → t ≠ "" →
        st.submissionToken = some t → st.tokenExpiresAt = some (nowSec + 29) →
        hasValidToken st (1000 * nowSec) = false)
    ∧ (∀ (st : ApiClientState) (nowSec : Int) (t : String), 0 ≤ nowSec → t ≠ "" →
        st.submissionToken = some t → st.tokenExpiresAt = some (nowSec + 31) →
        hasValidToken st (1000 * nowSec) = true) := by
  refine ⟨?_, ?_, ?_⟩
  · intro st nowMs h0
    cases hst : st.submissionToken with
    | none => simp [hasValidToken, hst]
    | some t =>
      cases hse : st.tokenExpiresAt with
      | none => simp [hasValidToken, hst, hse]
      | some e =>
        by_cases ht : t = ""
        · subst ht
          simp [hasValidToken, hst, hse]
        · by_cases he : e = 0
          · subst he
            have hq : (0 : ℚ) ≤ (nowMs : ℚ) / 1000 := by positivity
            simp only [hasValidToken, hst, hse]
            rw [if_pos (by simp)]
            simp only [Bool.false_eq_true, false_iff]
            rintro ⟨t', e', ht', htt', he', hlt⟩
            injection he' with h2
            subst h2
            push_cast at hlt
            linarith
          · simp only [hasValidToken, hst, hse]
            rw [if_neg (by tauto)]
            simp only [decide_eq_true_eq, TOKEN_EXPIRY_BUFFER_SECONDS]
            constructor
            · intro h
              exact ⟨t, e, rfl, ht, rfl, (msSeconds_lt_iff nowMs e).mpr h⟩
            · rintro ⟨t', e', ht', htt', he', hlt⟩
              injection ht' with h1
              injection he' with h2
              subst h1
              subst h2
              exact (msSeconds_lt_iff nowMs e).mp hlt
  · intro st nowSec t h0 ht h1 h2
    by_cases he : nowSec + 29 = 0
    · simp [hasValidToken, h1, h2, he]
    · simp only [hasValidToken, h1, h2, TOKEN_EXPIRY_BUFFER_SECONDS]
      rw [if_neg (by tauto)]
      simp only [decide_eq_false_iff_not, not_lt]
      omega
  · intro st nowSec t h0 ht h1 h2
    have he : nowSec + 31 ≠ 0 := by omega
    simp only [hasValidToken, h1, h2, TOKEN_EXPIRY_BUFFER_SECONDS]
    rw [if_neg (by tauto)]
    simp only [decide_eq_true_eq]
    omega

/-- Claim C4: A `fetchConfig` call finding a cache entry within its TTL
(`now < expiresAt`) returns the cached config with no network request
and no state change; a call finding only an expired entry produces the
same result and network activity as if the entry were absent, and (when
no request is in flight) issues a new network request. -/
theorem C4_fetchConfig_cache :
    (∀ (st : ApiClientState) (nowMs : Int) (widgetId : String) (net : ConfigNet)
       (entry : CacheEntry ConfigResponse),
       validateWidgetId widgetId = .ok () →
       alistGet st.configCache ("config:" ++ widgetId) = some entry →
       nowMs < entry.expiresAt →
       fetchConfig st nowMs widgetId net = ⟨.ok entry.data, st, false⟩)
    ∧ (∀ (st : ApiClientState) (nowMs : Int) (widgetId : String) (net : ConfigNet)
       (entry : CacheEntry ConfigResponse),
       validateWidgetId widgetId = .ok () →
       alistGet st.configCache ("config:" ++ widgetId) = some entry →
       ¬ nowMs < entry.expiresAt →
       (fetchConfig st nowMs widgetId net).result =
         (fetchConfig
           { st with configCache := alistErase st.configCache ("config:" ++ widgetId) }
           nowMs widgetId net).result
       ∧ (fetchConfig st nowMs widgetId net).networkIssued =
         (fetchConfig
           { st with configCache := alistErase st.configCache ("config:" ++ widgetId) }
           nowMs widgetId net).networkIssued
       ∧ (("fetchConfig:" ++ widgetId) ∉ st.pendingRequests →
          (fetchConfig st nowMs widgetId net).networkIssued = true)) := by
  constructor
  · intro st nowMs widgetId net entry hv hc hlt
    simp [fetchConfig, hv, hc, hlt]
  · intro st nowMs widgetId net entry hv hc hlt
    refine ⟨?_, ?_, ?_⟩
    · by_cases hp : ("fetchConfig:" ++ widgetId) ∈ st.pendingRequests
      · simp [fetchConfig, hv, hc, hlt, alistGet_alistErase_self, hp]
      · cases net with
        | ok data =>
          simp [fetchConfig, hv, hc, hlt, alistGet_alistErase_self, hp, doFetchConfig]
        | fail msg =>
          simp [fetchConfig, hv, hc, hlt, alistGet_alistErase_self, hp, doFetchConfig]
    · by_cases hp : ("fetchConfig:" ++ widgetId) ∈ st.pendingRequests
      · simp [fetchConfig, hv, hc, hlt, alistGet_alistErase_self, hp]
      · cases net with
        | ok data =>
          simp [fetchConfig, hv, hc, hlt, alistGet_alistErase_self, hp, doFetchConfig]
        | fail msg =>
          simp [fetchConfig, hv, hc, hlt, alistGet_alistErase_self, hp, doFetchConfig]
    · intro hp
      cases net with
      | ok data => simp [fetchConfig, hv, hc, hlt, hp, doFetchConfig]
      | fail msg => simp [fetchConfig, hv, hc, hlt, hp, doFetchConfig]

/-- Witness for C4: at t=100ms the entry is fresh and served without
network; at t=500000ms it is stale and a network request is issued. -/
theorem C4_fetchConfig_cache_witness :
    fetchConfig cachedApiState 100 "w1" (.fail "boom") =
      ⟨.ok sampleConfig, cachedApiState, false⟩ ∧
    (fetchConfig cachedApiState 500000 "w1" (.fail "boom")).networkIssued = true := by
  constructor
  · exact C4_fetchConfig_cache.1 cachedApiState 100 "w1" (.fail "boom")
      ⟨sampleConfig, 400000⟩ rfl rfl (by decide)
  · exact (C4_fetchConfig_cache.2 cachedApiState 500000 "w1" (.fail "boom")
      ⟨sampleConfig, 400000⟩ rfl rfl (by decide)).2.2 (by decide)

/-- Claim C9: When the network request inside `fetchConfig` fails, the
call throws that error and leaves the client state exactly as found (no
cache entry added, token fields untouched, pending slot removed), and a
subsequent `fetchConfig` for the same identifier at any later time
issues a fresh network request. -/
theorem C9_fetchConfig_error_preserves_state :
    ∀ (st : ApiClientState) (nowMs nowMs' : Int) (widgetId e : String)
      (net' : ConfigNet),
      validateWidgetId widgetId = .ok () →
      cacheMissOrStale st nowMs widgetId →
      ("fetchConfig:" ++ widgetId) ∉ st.pendingRequests →
      nowMs ≤ nowMs' →
      fetchConfig st nowMs widgetId (.fail e) = ⟨.error e, st, true⟩ ∧
      (fetchConfig st nowMs' widgetId net').networkIssued = true := by
  intro st nowMs nowMs' widgetId e net' hv hmiss hp hle
  have hhit : ∀ (m : Int), nowMs ≤ m →
      (match alistGet st.configCache ("config:" ++ widgetId) with
        | some cached =>
          if m < cached.expiresAt then some cached.data else none
        | none => none) = (none : Option ConfigResponse) := by
    intro m hm
    cases hc : alistGet st.configCache ("config:" ++ widgetId) with
    | none => simp
    | some cached =>
      have := hmiss cached hc
      have : ¬ m < cached.expiresAt := by omega
      simp [this]
  constructor
  · simp only [fetchConfig, hv]
    rw [hhit nowMs le_rfl]
    simp [hp, doFetchConfig]
  · simp only [fetchConfig, hv]
    rw [hhit nowMs' hle]
    cases net' with
    | ok data => simp [hp, doFetchConfig]
    | fail msg => simp [hp, doFetchConfig]

/-- Witness for C9: a failed fetch at t=100ms on an empty-cache client
returns the error unchanged-state outcome, and a retry still hits the
network. -/
theorem C9_fetchConfig_error_preserves_state_witness :
    fetchConfig (mkApiClient "https://api.feedvalue.com") 100 "w1"
        (.fail "Widget not found") =
      ⟨.error "Widget not found", mkApiClient "https://api.feedvalue.com", true⟩ ∧
    (fetchConfig (mkApiClient "https://api.feedvalue.com") 200 "w1"
        (.ok sampleConfig)).networkIssued = true :=
  C9_fetchConfig_error_preserves_state
    (mkApiClient "https://api.feedvalue.com") 100 200 "w1" "Widget not found"
    (.ok sampleConfig) rfl (fun entry h => Option.noConfusion h) (by decide) (by decide)

/-- On `hasValidToken = true` the stored token is a nonempty string. -/
theorem hasValidToken_truthy (st : ApiClientState) (nowMs : Int)
    (h : hasValidToken st nowMs = true) :
    ∃ t, st.submissionToken = some t ∧ t ≠ "" := by
  cases hst : st.submissionToken with
  | none => simp [hasValidToken, hst] at h
  | some t =>
    refine ⟨t, rfl, ?_⟩
    intro hte
    subst hte
    cases hse : st.tokenExpiresAt with
    | none => simp [hasValidToken, hst, hse] at h
    | some e => simp [hasValidToken, hst, hse] at h

/-- A `fetchConfig` call finding no fresh cache entry and no in-flight
request runs `doFetchConfig` and reports a network request. -/
theorem fetchConfig_miss (st : ApiClientState) (nowMs : Int) (widgetId : String)
    (net : ConfigNet)
    (hv : validateWidgetId widgetId = .ok ())
    (hmiss : cacheMissOrStale st nowMs widgetId)
    (hp : ("fetchConfig:" ++ widgetId) ∉ st.pendingRequests) :
    fetchConfig st nowMs widgetId net =
      ⟨(doFetchConfig st nowMs widgetId net).1,
       (doFetchConfig st nowMs widgetId net).2, true⟩ := by
  simp only [fetchConfig, hv]
  have hhit : (match alistGet st.configCache ("config:" ++ widgetId) with
      | some cached =>
        if nowMs < cached.expiresAt then some cached.data else none
      | none => none) = (none : Option ConfigResponse) := by
    cases hc : alistGet st.configCache ("config:" ++ widgetId) with
    | none => simp
    | some cached => simp [hmiss cached hc]
  rw [hhit]
  simp [hp]

/-- Counterexample to claim C1: A concrete run refuting the claim's final
clause: the first POST returns a token-rejection 403 with message
`"token expired"`, the refresh stores the fresh token `tok-new`, and the
retried POST fails with the distinct error `"server exploded"` — yet the
error surfaced is the original `"token expired"`, not the retry's. -/
theorem C1_counterexample :
    (submitFeedback tokenApiState 1000000 "w1" retryFailOracle).result =
      .error "token expired" ∧
    (submitFeedback tokenApiState 1000000 "w1" retryFailOracle).result ≠
      .error "server exploded" ∧
    (submitFeedback tokenApiState 1000000 "w1" retryFailOracle).postTokens =
      ["tok-old", "tok-new"] := by
  refine ⟨rfl, ?_, rfl⟩
  rw [show (submitFeedback tokenApiState 1000000 "w1" retryFailOracle).result =
    Except.error "token expired" from rfl]
  simp

/-- Claim C1, amended: On a 403 whose body is not a plan-limit pair and
whose `detail` text mentions `token` or `expired`, the client clears the
stored token, calls `fetchConfig`, and — when that call reaches the
network and stores a fresh token — retries the POST exactly once with
the new token; if the retried POST also fails, the error surfaced is the
**original 403 message**, not the retry's error. -/
theorem C1_403_token_retry_surfaces_original :
    ∀ (st : ApiClientState) (nowMs : Int) (widgetId : String) (o : SubmitOracle)
      (tok errMsg tok2 : String) (newCfg : ConfigResponse),
      validateWidgetId widgetId = .ok () →
      hasValidToken st nowMs = true →
      st.submissionToken = some tok →
      o.postResp = .forbidden (.text errMsg) →
      (strIncludes errMsg "token" = true ∨ strIncludes errMsg "expired" = true) →
      errMsg ≠ "" →
      cacheMissOrStale st nowMs widgetId →
      ("fetchConfig:" ++ widgetId) ∉ st.pendingRequests →
      o.retryRefreshNet = .ok newCfg →
      newCfg.submission_token = some tok2 →
      tok2 ≠ "" →
      o.retryResp.isOk = false →
      (submitFeedback st nowMs widgetId o).result = .error errMsg ∧
      (submitFeedback st nowMs widgetId o).postTokens = [tok, tok2] ∧
      (submitFeedback st nowMs widgetId o).configRequests = 1 := by
  intro st nowMs widgetId o tok errMsg tok2 newCfg hv hvalid hst hpost hinc herr
    hmiss hp hnet hcfgtok htok2 hisok
  have htok : tok ≠ "" := by
    obtain ⟨t0, hst0, ht0⟩ := hasValidToken_truthy st nowMs hvalid
    rw [hst] at hst0
    injection hst0 with h
    subst h
    exact ht0
  have hmiss1 : cacheMissOrStale { st with submissionToken := none } nowMs widgetId :=
    fun entry h => hmiss entry h
  have hp1 : ("fetchConfig:" ++ widgetId) ∉
      ({ st with submissionToken := none } : ApiClientState).pendingRequests := hp
  have hfetch := fetchConfig_miss { st with submissionToken := none } nowMs widgetId
    (.ok newCfg) hv hmiss1 hp1
  have hdo2 : (doFetchConfig { st with submissionToken := none } nowMs widgetId
      (.ok newCfg)).2.submissionToken = some tok2 := by
    simp [doFetchConfig, strTruthy, hcfgtok, htok2]
  have hout : submitFeedback st nowMs widgetId o =
      ⟨.error errMsg,
       (doFetchConfig { st with submissionToken := none } nowMs widgetId
         (.ok newCfg)).2,
       1, [tok, tok2]⟩ := by
    simp only [submitFeedback, hv]
    rw [if_pos hvalid]
    simp only [submitWithToken, hst]
    rw [if_neg htok]
    simp only [handlePostResponse, hpost]
    rw [if_pos hinc, hnet, hfetch]
    simp only [hdo2]
    rw [if_neg htok2]
    have hdo1 : (doFetchConfig { st with submissionToken := none } nowMs widgetId
        (.ok newCfg)).1 = .ok newCfg := by
      simp [doFetchConfig]
    cases hre : o.retryResp with
    | success body => rw [hre] at hisok; cases hisok
    | rateLimited r => rw [if_neg herr, hdo1]; simp
    | forbidden d => rw [if_neg herr, hdo1]; simp
    | failure m => rw [if_neg herr, hdo1]; simp
  rw [hout]
  exact ⟨rfl, rfl, rfl⟩

/-- Witness for C1 (amended): the concrete retry-failure run. -/
theorem C1_403_token_retry_surfaces_original_witness :
    (submitFeedback tokenApiState 1000000 "w1" retryFailOracle).result =
      .error "token expired" ∧
    (submitFeedback tokenApiState 1000000 "w1" retryFailOracle).postTokens =
      ["tok-old", "tok-new"] ∧
    (submitFeedback tokenApiState 1000000 "w1" retryFailOracle).configRequests = 1 :=
  C1_403_token_retry_surfaces_original tokenApiState 1000000 "w1" retryFailOracle
    "tok-old" "token expired" "tok-new" newTokenConfig
    rfl (by decide) rfl rfl (Or.inl (by decide)) (by decide)
    (fun entry h => Option.noConfusion h) (by decide) rfl rfl (by decide) rfl

/-- Counterexample to claim C2: With no stored token but a still-fresh cache
entry, `submitFeedback` performs **zero** network config requests — the
refresh is served from the cache, so no fresh token is obtained from the
server (the claim's "forced (cache-bypassing) config refresh" does not
happen) — and then fails with the no-token error without posting. -/
theorem C2_counterexample :
    (submitFeedback cachedApiState 100 "w1" noNetworkOracle).configRequests = 0 ∧
    (submitFeedback cachedApiState 100 "w1" noNetworkOracle).result =
      .error "No submission token available" ∧
    (submitFeedback cachedApiState 100 "w1" noNetworkOracle).postTokens = [] :=
  ⟨rfl, rfl, rfl⟩

/-- Claim C2, amended: When `hasValidToken()` is false, `submitFeedback`
runs the ordinary (cache-respecting, not forced) `fetchConfig` before
posting; if after that call no truthy token is stored, it fails with the
no-token error without issuing the POST, leaving the state as the fetch
left it. -/
theorem C2_submit_refresh_unforced :
    ∀ (st : ApiClientState) (nowMs : Int) (widgetId : String) (o : SubmitOracle)
      (c : ConfigResponse),
      validateWidgetId widgetId = .ok () →
      hasValidToken st nowMs = false →
      (fetchConfig st nowMs widgetId o.refreshNet).result = .ok c →
      strTruthy (fetchConfig st nowMs widgetId o.refreshNet).state.submissionToken
        = false →
      (submitFeedback st nowMs widgetId o).result =
        .error "No submission token available" ∧
      (submitFeedback st nowMs widgetId o).postTokens = [] ∧
      (submitFeedback st nowMs widgetId o).state =
        (fetchConfig st nowMs widgetId o.refreshNet).state := by
  intro st nowMs widgetId o c hv hvalid hres htok
  have hout : submitFeedback st nowMs widgetId o =
      ⟨.error "No submission token available",
       (fetchConfig st nowMs widgetId o.refreshNet).state,
       if (fetchConfig st nowMs widgetId o.refreshNet).networkIssued then 1 else 0,
       []⟩ := by
    simp only [submitFeedback, hv]
    rw [if_neg (by simp [hvalid])]
    rw [hres]
    simp only [submitWithToken]
    cases hst : (fetchConfig st nowMs widgetId o.refreshNet).state.submissionToken with
    | none => rfl
    | some t =>
      rw [hst] at htok
      have ht : t = "" := by simpa [strTruthy] using htok
      subst ht
      simp
  rw [hout]
  exact ⟨rfl, rfl, rfl⟩

/-- Witness for C2 (amended): the concrete cached-refresh run. -/
theorem C2_submit_refresh_unforced_witness :
    (submitFeedback cachedApiState 100 "w1" noNetworkOracle).result =
      .error "No submission token available" ∧
    (submitFeedback cachedApiState 100 "w1" noNetworkOracle).postTokens = [] ∧
    (submitFeedback cachedApiState 100 "w1" noNetworkOracle).state =
      (fetchConfig cachedApiState 100 "w1" noNetworkOracle.refreshNet).state :=
  C2_submit_refresh_unforced cachedApiState 100 "w1" noNetworkOracle sampleConfig
    rfl (by decide) rfl rfl

/-- Erasing a key only removes entries. -/
theorem mem_alistErase {κ α : Type} [DecidableEq κ]
    (l : List (κ × α)) (k : κ) (p : κ × α) (h : p ∈ alistErase l k) : p ∈ l := by
  induction l with
  | nil => cases h
  | cons q rest ih =>
    obtain ⟨a, v⟩ := q
    by_cases ha : a = k
    · simp only [alistErase, if_pos ha] at h
      exact List.mem_cons_of_mem _ (ih h)
    · simp only [alistErase, if_neg ha] at h
      rcases List.mem_cons.mp h with h1 | h1
      · exact h1 ▸ List.mem_cons_self _ _
      · exact List.mem_cons_of_mem _ (ih h1)

/-- An all-`'a'` string is untouched by `jsTrim`. -/
theorem jsTrim_replicate_a (n : Nat) :
    jsTrim (String.mk (List.replicate (n + 1) 'a')) =
      String.mk (List.replicate (n + 1) 'a') := by
  have hws : jsWhitespace 'a' = false := by decide
  have h1 : List.dropWhile jsWhitespace (List.replicate (n + 1) 'a') =
      List.replicate (n + 1) 'a' := by
    rw [List.replicate_succ]
    simp [List.dropWhile_cons, hws]
  show String.mk ((((List.replicate (n + 1) 'a').dropWhile
      jsWhitespace).reverse.dropWhile jsWhitespace).reverse) = _
  rw [h1, List.reverse_replicate, h1, List.reverse_replicate]

/-- Claim C6: `getSnapshot()` keeps returning the same snapshot object
across non-mutating operations; `updateState` allocates a new, distinct
snapshot object for the patched state; and the previously returned
snapshot object is never mutated — its log entry still holds its old
value afterwards. -/
theorem C6_snapshot_identity :
    ∀ (c : Controller) (p : StatePatch) (uid : String)
      (traits : Option (List (String × String))) (data : List (String × String))
      (cbId : Nat),
      wfController c →
      (getSnapshot (identifyOp c uid traits) = getSnapshot c ∧
       getSnapshot (setDataOp c data) = getSnapshot c ∧
       getSnapshot (resetOp c) = getSnapshot c ∧
       getSnapshot (subscribeOp c cbId) = getSnapshot c) ∧
      (updateState c p).ctrl.snapshotId ≠ c.snapshotId ∧
      alistGet (updateState c p).ctrl.snapshots c.snapshotId =
        some c.stateSnapshot ∧
      getSnapshot (updateState c p).ctrl =
        ((updateState c p).ctrl.snapshotId, applyPatch c.state p) ∧
      wfController (updateState c p).ctrl := by
  intro c p uid traits data cbId hwf
  obtain ⟨h1, h2, h3⟩ := hwf
  have hne : c.nextId ≠ c.snapshotId := by omega
  refine ⟨⟨rfl, rfl, rfl, rfl⟩, ?_, ?_, rfl, ?_, ?_, ?_⟩
  · exact hne
  · show alistGet (alistSet c.snapshots c.nextId (applyPatch c.state p))
      c.snapshotId = some c.stateSnapshot
    rw [alistGet_alistSet_ne _ _ _ _ hne]
    exact h3
  · show c.nextId < c.nextId + 1
    omega
  · show ∀ q ∈ alistSet c.snapshots c.nextId (applyPatch c.state p),
      q.1 < c.nextId + 1
    intro q hq
    rcases List.mem_cons.mp hq with h | h
    · rw [h]; omega
    · have := h2 q (mem_alistErase _ _ _ h)
      omega
  · show alistGet (alistSet c.snapshots c.nextId (applyPatch c.state p))
      c.nextId = some (applyPatch c.state p)
    exact alistGet_alistSet_self _ _ _

/-- Witness for C6: the freshly initialized controller. -/
theorem C6_snapshot_identity_witness :
    getSnapshot (setDataOp readyController [("email", "a@b.com")]) =
      getSnapshot readyController ∧
    (updateState readyController { isOpen := some true }).ctrl.snapshotId ≠
      readyController.snapshotId ∧
    alistGet (updateState readyController { isOpen := some true }).ctrl.snapshots
      readyController.snapshotId = some readyController.stateSnapshot := by
  have h := C6_snapshot_identity readyController { isOpen := some true } "u" none
    [("email", "a@b.com")] 7 ⟨by decide, by decide, by decide⟩
  exact ⟨h.1.2.1, h.2.1, h.2.2.1⟩

/-- Claim C7: `init()` is idempotent per widget identifier: a second call
(with any options naming the same identifier) returns the identical
instance and leaves the registry untouched; after `destroy()` of that
instance, a fresh `init()` returns a new, distinct instance. -/
theorem C7_init_idempotent_destroy_fresh :
    ∀ (r : Registry) (o1 o2 o3 : FeedValueOptions),
      o2.widgetId = o1.widgetId → o3.widgetId = o1.widgetId →
      wfRegistry r →
      (registryInit (registryInit r o1).1 o2).2 = (registryInit r o1).2 ∧
      (registryInit (registryInit r o1).1 o2).1 = (registryInit r o1).1 ∧
      (registryInit (registryDestroy (registryInit r o1).1 (registryInit r o1).2)
        o3).2 ≠ (registryInit r o1).2 := by
  intro r o1 o2 o3 h2 h3 hwf
  cases hl : alistGet r.instances o1.widgetId with
  | some iid =>
    have e1 : registryInit r o1 = (r, iid) := by simp [registryInit, hl]
    rw [e1]
    obtain ⟨hlt, c, hheap, hwid⟩ := hwf o1.widgetId iid hl
    have ed : registryDestroy r iid =
        { r with
          instances := alistErase r.instances c.widgetId
          heap := alistSet r.heap iid (destroyCtrl c) } := by
      simp [registryDestroy, hheap]
    refine ⟨by simp [registryInit, h2, hl], by simp [registryInit, h2, hl], ?_⟩
    rw [ed]
    have hn : alistGet (alistErase r.instances c.widgetId) o3.widgetId = none := by
      rw [h3, ← hwid]
      exact alistGet_alistErase_self _ _
    simp only [registryInit, hn]
    intro hcontra
    omega
  | none =>
    have e1 : registryInit r o1 =
        ({ instances := alistSet r.instances o1.widgetId r.nextInstanceId
           heap := alistSet r.heap r.nextInstanceId
             (mkController o1.widgetId o1.apiBaseUrl)
           nextInstanceId := r.nextInstanceId + 1 }, r.nextInstanceId) := by
      simp [registryInit, hl]
    rw [e1]
    have hlook : alistGet (alistSet r.instances o1.widgetId r.nextInstanceId)
        o2.widgetId = some r.nextInstanceId := by
      rw [h2]; exact alistGet_alistSet_self _ _ _
    refine ⟨by simp [registryInit, hlook], by simp [registryInit, hlook], ?_⟩
    have hheap : alistGet (alistSet r.heap r.nextInstanceId
        (mkController o1.widgetId o1.apiBaseUrl)) r.nextInstanceId =
        some (mkController o1.widgetId o1.apiBaseUrl) :=
      alistGet_alistSet_self _ _ _
    simp only [registryDestroy, hheap]
    have hn : alistGet (alistErase (alistSet r.instances o1.widgetId
        r.nextInstanceId) (mkController o1.widgetId o1.apiBaseUrl).widgetId)
        o3.widgetId = none := by
      rw [h3]
      show alistGet (alistErase _ o1.widgetId) o1.widgetId = none
      exact alistGet_alistErase_self _ _
    simp only [registryInit, hn]
    intro hcontra
    omega

/-- Witness for C7: two `init("w1")` calls on the empty registry return
the same instance id; `destroy()` then `init("w1")` returns a new id. -/
theorem C7_init_idempotent_destroy_fresh_witness :
    (registryInit (registryInit emptyRegistry ⟨"w1", "https://api.feedvalue.com"⟩).1
      ⟨"w1", "https://api.feedvalue.com"⟩).2 =
      (registryInit emptyRegistry ⟨"w1", "https://api.feedvalue.com"⟩).2 ∧
    (registryInit (registryDestroy
        (registryInit emptyRegistry ⟨"w1", "https://api.feedvalue.com"⟩).1
        (registryInit emptyRegistry ⟨"w1", "https://api.feedvalue.com"⟩).2)
      ⟨"w1", "https://api.feedvalue.com"⟩).2 ≠
      (registryInit emptyRegistry ⟨"w1", "https://api.feedvalue.com"⟩).2 := by
  have h := C7_init_idempotent_destroy_fresh emptyRegistry
    ⟨"w1", "https://api.feedvalue.com"⟩ ⟨"w1", "https://api.feedvalue.com"⟩
    ⟨"w1", "https://api.feedvalue.com"⟩ rfl rfl
    (fun w iid hcontra => Option.noConfusion hcontra)
  exact ⟨h.1, h.2.2⟩

/-- Counterexample to claim C8: After `open()` then `destroy()`, the internal
`state` is reset, but `getSnapshot()` still returns the pre-destroy
snapshot (`isOpen = true`), not the fresh default — `destroy()` never
reassigns `stateSnapshot`. -/
theorem C8_counterexample :
    (destroyCtrl openedController).state = destroyedControllerState ∧
    (getSnapshot (destroyCtrl openedController)).2.isOpen = true ∧
    (getSnapshot (destroyCtrl openedController)).2 ≠ destroyedControllerState ∧
    getSnapshot (destroyCtrl openedController) = getSnapshot openedController := by
  refine ⟨rfl, by decide, by decide, rfl⟩

/-- Claim C8, amended: `destroy()` resets the controller's `state` field
to a fresh default object (ready, open and submitting flags false, no
error), clears subscribers and the API client's cache — but
`getSnapshot()` still returns the last pre-destroy snapshot, since the
snapshot reference is not refreshed. -/
theorem C8_destroy_resets_state_not_snapshot :
    ∀ c : Controller,
      (destroyCtrl c).state = destroyedControllerState ∧
      (destroyCtrl c).state.isReady = false ∧
      (destroyCtrl c).state.isOpen = false ∧
      (destroyCtrl c).state.isSubmitting = false ∧
      (destroyCtrl c).state.error = none ∧
      (destroyCtrl c).subscribers = [] ∧
      (destroyCtrl c).apiClient.configCache = [] ∧
      (destroyCtrl c).apiClient.submissionToken = none ∧
      getSnapshot (destroyCtrl c) = getSnapshot c := by
  intro c
  exact ⟨rfl, rfl, rfl, rfl, rfl, rfl, rfl, rfl, rfl⟩

/-- Counterexample to claim C10: `show()` and `hide()` emit only
`stateChange`: there is no dedicated `show`/`hide` event in
`FeedValueEvents`, so "emits the corresponding event and a stateChange
event" fails for them (a single event is emitted, not two). -/
theorem C10_counterexample :
    (showOp readyController).emitted = [FVEvent.stateChange] ∧
    (showOp readyController).emitted.length = 1 ∧
    (hideOp readyController).emitted = [FVEvent.stateChange] ∧
    (closeOp readyController).emitted =
      [FVEvent.stateChange, FVEvent.targetClose] := by
  refine ⟨rfl, rfl, rfl, rfl⟩

/-- Claim C10, amended: Every `close()`, `show()` or `hide()` call —
including redundant ones where the targeted flag already holds the
requested value — replaces the snapshot with a new object, notifies
every registered subscriber, and emits `stateChange`; `close()`
additionally emits `close`, while `show()`/`hide()` have no dedicated
event and emit only `stateChange`. -/
theorem C10_transitions_never_suppressed :
    ∀ c : Controller, wfController c →
      ((closeOp c).emitted = [.stateChange, .targetClose] ∧
       (closeOp c).notified = c.subscribers ∧
       (closeOp c).ctrl.snapshotId ≠ c.snapshotId ∧
       (closeOp c).ctrl.state.isOpen = false) ∧
      ((showOp c).emitted = [.stateChange] ∧
       (showOp c).notified = c.subscribers ∧
       (showOp c).ctrl.snapshotId ≠ c.snapshotId ∧
       (showOp c).ctrl.state.isVisible = true) ∧
      ((hideOp c).emitted = [.stateChange] ∧
       (hideOp c).notified = c.subscribers ∧
       (hideOp c).ctrl.snapshotId ≠ c.snapshotId ∧
       (hideOp c).ctrl.state.isVisible = false) := by
  intro c hwf
  have hne : c.nextId ≠ c.snapshotId := by
    have := hwf.1
    omega
  exact ⟨⟨rfl, rfl, hne, rfl⟩, ⟨rfl, rfl, hne, rfl⟩, ⟨rfl, rfl, hne, rfl⟩⟩

/-- Witness for C10 (amended): a redundant `close()` on the
already-closed fresh controller still replaces the snapshot and emits. -/
theorem C10_transitions_never_suppressed_witness :
    readyController.state.isOpen = false ∧
    (closeOp readyController).emitted = [.stateChange, .targetClose] ∧
    (closeOp readyController).ctrl.snapshotId ≠ readyController.snapshotId := by
  have h := C10_transitions_never_suppressed readyController
    ⟨by decide, by decide, by decide⟩
  exact ⟨by decide, h.1.1, h.1.2.2.1⟩

/-- Claim C5: `submit` on a ready controller checks only readiness and
message presence: any message that is nonblank after trimming — however
long, in particular 10001-plus characters — passes validation and is
delegated to the API client (the repository's own tests instead expect
`'Feedback message exceeds maximum length of 10000 characters'`). -/
theorem C5_submit_length_unchecked :
    ∀ (c : Controller) (nowMs : Int) (fb : FeedbackData)
      (auto : List (String × String)) (o : SubmitOracle) (m : String),
      c.state.isReady = true →
      fb.message = some m →
      jsTrim m ≠ "" →
      10000 < m.length →
      (submitOp c nowMs fb auto o).result =
        (submitFeedback c.apiClient nowMs c.widgetId o).result ∧
      (submitOp c nowMs fb auto o).postTokens =
        (submitFeedback c.apiClient nowMs c.widgetId o).postTokens ∧
      (submitOp c nowMs fb auto o).emitted ≠ [] := by
  intro c nowMs fb auto o m hready hmsg htrim hlen
  simp only [submitOp, hmsg]
  rw [if_neg (by simp [hready])]
  rw [if_neg htrim]
  simp only [updateState]
  cases hs : (submitFeedback c.apiClient nowMs c.widgetId o).result with
  | ok resp => simp [hs]
  | error e => simp [hs]

/-- Witness for C5: the 10001-character message is accepted and POSTed
(one POST with the stored token, result `ok`). -/
theorem C5_submit_length_unchecked_witness :
    (submitOp readyTokenController 1000000 bigFeedback [] successOracle).result =
      .ok { feedback_id := some "fb-1", blocked := false, message := none } ∧
    (submitOp readyTokenController 1000000 bigFeedback [] successOracle).postTokens =
      ["tok-old"] := by
  have htrim : jsTrim bigMessage ≠ "" := by
    rw [show bigMessage = String.mk (List.replicate (10000 + 1) 'a') from rfl,
      jsTrim_replicate_a]
    intro hcontra
    have hdata : List.replicate (10000 + 1) 'a' = ([] : List Char) :=
      congrArg String.data hcontra
    rw [List.replicate_succ] at hdata
    cases hdata
  have hlen : 10000 < bigMessage.length := by
    show 10000 < (List.replicate 10001 'a').length
    rw [List.length_replicate]
    norm_num
  have h := C5_submit_length_unchecked readyTokenController 1000000 bigFeedback []
    successOracle bigMessage rfl rfl htrim hlen
  refine ⟨h.1.trans ?_, h.2.1.trans ?_⟩
  · rfl
  · rfl

/-- Witness for C3: with token `tok-abc`, `hasValidToken` is true at
expiry `now + 31` seconds and false at expiry `now + 29` seconds. -/
theorem C3_hasValidToken_buffer_witness :
    hasValidToken apiStateExpiry2031 (1000 * 2000) = true ∧
    hasValidToken apiStateExpiry2029 (1000 * 2000) = false := by
  constructor
  · exact C3_hasValidToken_buffer.2.2 apiStateExpiry2031 2000 "tok-abc"
      (by norm_num) (by decide) rfl (by decide)
  · exact C3_hasValidToken_buffer.2.1 apiStateExpiry2029 2000 "tok-abc"
      (by norm_num) (by decide) rfl (by decide)
